import Mathlib

/-!
Verification of the coordinate-system / coordinate-transformation data model
and the standard-transformation builder functions of the `cets-data-models`
repository (`src/cets_data_model/models/models.py` and
`src/cets_data_model/standard_transformations.py`).

Python floats are modelled as `Rat`: the code performs no floating-point
arithmetic on the payloads (only list construction and equality), so every
value appearing here is exactly representable.

Python exceptions (`raise ValueError`) are modelled with `Except String`;
a function that cannot raise returns its value directly.
-/

namespace Cets

/-- An axis in a coordinate system (`models.py`, class `Axis`):
`name` is required, `axis_unit` and `axis_type` are optional. -/
structure Axis where
  name : String
  axis_unit : Option String := none
  axis_type : Option String := none
deriving DecidableEq, Repr

/-- A coordinate system (`models.py`, class `CoordinateSystem`):
`name` and `axes` are both required fields. -/
structure CoordinateSystem where
  name : String
  axes : List Axis
deriving DecidableEq, Repr

/-- Pydantic construction of a `CoordinateSystem` from optional raw inputs:
each of the two fields is declared required (`Field(default=...)`), so a
missing field is a validation error; no other constraint is declared on
either field (in particular no `min_length` on `axes`). -/
def mkCoordinateSystem (name : Option String) (axes : Option (List Axis)) :
    Except String CoordinateSystem :=
  match name, axes with
  | none, _ => .error "Field required: name"
  | _, none => .error "Field required: axes"
  | some n, some a => .ok ⟨n, a⟩

/-- `Vector2D` validator of `models.py`: a float list of length exactly 2. -/
def isVector2D (v : List Rat) : Bool := v.length == 2

/-- `Vector3D` validator of `models.py`: a float list of length exactly 3. -/
def isVector3D (v : List Rat) : Bool := v.length == 3

/-- `Matrix2x2` validator of `models.py`: 2 rows, each a `Vector2D`. -/
def isMatrix2x2 (m : List (List Rat)) : Bool :=
  m.length == 2 && m.all isVector2D

/-- `Matrix3x3` validator of `models.py`: 3 rows, each a `Vector3D`. -/
def isMatrix3x3 (m : List (List Rat)) : Bool :=
  m.length == 3 && m.all isVector3D

/-- The transformation values constructed by `standard_transformations.py`.
Common fields `name`/`input`/`output` come from the base class
`CoordinateTransformation` (all optional).  The `identity`, `translation`,
`scale`, `affine` and `sequence` variants are the classes of `models.py`.

Modelled from the spec: the `Flip2D` and `Rotation2D` classes are imported
by `standard_transformations.py` (and used by its tests) but their
definitions are not part of the sources under inspection; following the
spec's description of the flip/rotation builders they are transformation
records sharing the common base fields, with a 2x2-matrix payload field
named `flip2d` (resp. `rotation2d`). -/
inductive Xform where
  | identity (name input output : Option String)
  | translation (name input output : Option String) (translation : Option (List Rat))
  | scale (name input output : Option String) (scale : Option (List Rat))
  | affine (name input output : Option String) (affine : Option (List (List Rat)))
  | flip2d (name input output : Option String) (flip2d : Option (List (List Rat)))
  | rotation2d (name input output : Option String) (rotation2d : Option (List (List Rat)))
  | sequence (name input output : Option String) (sequence : Option (List Xform))
deriving Repr

/-- The `input` field common to all transformation variants. -/
def xinput : Xform → Option String
  | .identity _ i _ => i
  | .translation _ i _ _ => i
  | .scale _ i _ _ => i
  | .affine _ i _ _ => i
  | .flip2d _ i _ _ => i
  | .rotation2d _ i _ _ => i
  | .sequence _ i _ _ => i

/-- The `output` field common to all transformation variants. -/
def xoutput : Xform → Option String
  | .identity _ _ o => o
  | .translation _ _ o _ => o
  | .scale _ _ o _ => o
  | .affine _ _ o _ => o
  | .flip2d _ _ o _ => o
  | .rotation2d _ _ o _ => o
  | .sequence _ _ o _ => o

/-- The steps of a `sequence` transformation (empty for anything else). -/
def seqSteps : Xform → List Xform
  | .sequence _ _ _ (some s) => s
  | _ => []

-- Axis constants of `standard_transformations.py` (module level).
def x_axis_logical : Axis := { name := "logical coordinates x axis", axis_unit := some "pixel/voxel" }
def y_axis_logical : Axis := { name := "logical coordinates y axis", axis_unit := some "pixel/voxel" }
def z_axis_logical : Axis := { name := "logical coordinates z axis", axis_unit := some "pixel/voxel" }

def x_axis_physical : Axis := { name := "physical coordinates x axis", axis_unit := some "Ångstrom" }
def y_axis_physical : Axis := { name := "physical coordinates y axis", axis_unit := some "Ångstrom" }
def z_axis_physical : Axis := { name := "physical coordinates z axis", axis_unit := some "Ångstrom" }

/-- `physical_coords` of `standard_transformations.py`. -/
def physical_coords (name : String) : CoordinateSystem :=
  { name := name, axes := [x_axis_physical, z_axis_physical] }

/-- `logical_coords` of `standard_transformations.py` (its Python `name`
parameter defaults to `None`, replaced by `"base_logical_coordinates"`;
callers of the default pass `none` explicitly here). -/
def logical_coords (name : Option String) : CoordinateSystem :=
  { name := name.getD "base_logical_coordinates",
    axes := [x_axis_logical, z_axis_logical] }

/-- `generate_flip_transformation` of `standard_transformations.py`.
The `axis` parameter is compared against `None`, `"x"`, `"y"` in turn;
anything else raises `ValueError`. -/
def generate_flip_transformation (name input output : String)
    (axis : Option String) : Except String Xform :=
  match axis with
  | none => .ok (.flip2d (some name) (some input) (some output) (some [[1, 0], [0, 1]]))
  | some a =>
    if a = "x" then
      .ok (.flip2d (some name) (some input) (some output) (some [[1, 0], [0, -1]]))
    else if a = "y" then
      .ok (.flip2d (some name) (some input) (some output) (some [[-1, 0], [0, 1]]))
    else
      .error "Axis must be 'x', 'y'"

/-- `generate_translation_transformation` of `standard_transformations.py`:
an absent vector becomes `[0] * dim`; a vector whose length differs from
`dim` raises `ValueError`. -/
def generate_translation_transformation (name input output : String)
    (dim : Nat) (trans_vector : Option (List Rat)) : Except String Xform :=
  let v := trans_vector.getD (List.replicate dim 0)
  if v.length = dim then
    .ok (.translation (some name) (some input) (some output) (some v))
  else
    .error "Incorrect dimensionality of translation vector"

/-- `generate_rotation_transformation` of `standard_transformations.py`:
dispatches on the outer length of the matrix (`None` → `Identity`,
3 → `Affine`, 2 → `Rotation2D`, otherwise `ValueError`).  Constructing an
`Affine` validates its `Matrix3x3` payload (inner rows of length 3), and
constructing a `Rotation2D` likewise validates a 2x2 payload, so a matrix
of outer length 3 (resp. 2) with malformed rows is a validation error. -/
def generate_rotation_transformation (name input output : String)
    (affine : Option (List (List Rat))) : Except String Xform :=
  match affine with
  | none => .ok (.identity (some name) (some input) (some output))
  | some m =>
    if m.length = 3 then
      if isMatrix3x3 m then
        .ok (.affine (some name) (some input) (some output) (some m))
      else .error "rows of a Matrix3x3 must have length 3"
    else if m.length = 2 then
      if isMatrix2x2 m then
        .ok (.rotation2d (some name) (some input) (some output) (some m))
      else .error "rows of a Matrix2x2 must have length 2"
    else
      .error "Invalid matrix dimensions"

/-- `generate_scale_transformation` of `standard_transformations.py`:
`dim=None` raises `ValueError`; an absent scale becomes `0.0`; the payload
is `[scale] * dim`. -/
def generate_scale_transformation (name input output : String)
    (scale : Option Rat) (dim : Option Nat) : Except String Xform :=
  match dim with
  | none => .error "Dimension cannot be None"
  | some d =>
    .ok (.scale (some name) (some input) (some output)
          (some (List.replicate d (scale.getD 0))))

/-- `aligned_calibration_image_to_micrograph` of
`standard_transformations.py`: a flip step followed by a 2-D translation
step, wrapped in a `sequence`.  A `ValueError` raised by either generator
propagates. -/
def aligned_calibration_image_to_micrograph (flip_axis : Option String)
    (translation : Option (List Rat)) :
    Except String (Xform × List CoordinateSystem) :=
  let sequence_name := "Align calibration image to movie"
  let flipped_coords := logical_coords (some "calibration_image_flipped")
  let final := logical_coords (some "calibration_image_aligned")
  match generate_flip_transformation sequence_name (logical_coords none).name
      flipped_coords.name flip_axis with
  | .error e => .error e
  | .ok s0 =>
    match generate_translation_transformation sequence_name
        flipped_coords.name final.name 2 translation with
    | .error e => .error e
    | .ok s1 =>
      .ok (.sequence (some sequence_name) (some (logical_coords none).name)
            (some final.name) (some [s0, s1]),
           [flipped_coords, final])

/-- `aligned_movie_frame_to_projection` of `standard_transformations.py`:
builds a single `Translation` whose payload is the supplied vector, passed
through unchanged (also when it is `None`). -/
def aligned_movie_frame_to_projection (translation_vector : Option (List Rat)) :
    Xform × List CoordinateSystem :=
  let sequence_name := "Align movie frame to projection"
  let translated_coords := logical_coords (some "movie_frame_aligned")
  (.translation (some sequence_name) (some (logical_coords none).name)
     (some translated_coords.name) translation_vector,
   [translated_coords])

/-- `aligned_projection_image_to_tilt_series` of
`standard_transformations.py`: a 2-D translation step followed by a
rotation step, wrapped in a `sequence`. -/
def aligned_projection_image_to_tilt_series (translation_vector : Option (List Rat))
    (rotation_matrix : Option (List (List Rat))) :
    Except String (Xform × List CoordinateSystem) :=
  let sequence_name := "Align projection image to tilt series"
  let translated_cords := logical_coords (some "projection_image_translated")
  let final := logical_coords (some "projection_image_aligned")
  match generate_translation_transformation sequence_name (logical_coords none).name
      translated_cords.name 2 translation_vector with
  | .error e => .error e
  | .ok s0 =>
    match generate_rotation_transformation sequence_name translated_cords.name
        final.name rotation_matrix with
    | .error e => .error e
    | .ok s1 =>
      .ok (.sequence (some sequence_name) (some (logical_coords none).name)
            (some final.name) (some [s0, s1]),
           [translated_cords, final])

/-- `aligned_subtomo_to_tomogram` of `standard_transformations.py`: a
rotation step followed by a 3-D translation step, wrapped in a `sequence`. -/
def aligned_subtomo_to_tomogram (rotation_matrix : Option (List (List Rat)))
    (translation_vector : Option (List Rat)) :
    Except String (Xform × List CoordinateSystem) :=
  let sequence_name := "Align subtomo to tomogram"
  let rotated_cords := logical_coords (some "subtomo_rotated")
  let final := logical_coords (some "subtomo_aligned")
  match generate_rotation_transformation sequence_name (logical_coords none).name
      rotated_cords.name rotation_matrix with
  | .error e => .error e
  | .ok s0 =>
    match generate_translation_transformation sequence_name rotated_cords.name
        final.name 3 translation_vector with
    | .error e => .error e
    | .ok s1 =>
      .ok (.sequence (some sequence_name) (some (logical_coords none).name)
            (some final.name) (some [s0, s1]),
           [rotated_cords, final])

/-- `aligned_map_to_tomogram` of `standard_transformations.py`: a 3-D scale
step, a rotation step and a 3-D translation step, wrapped in a `sequence`. -/
def aligned_map_to_tomogram (scale : Option Rat)
    (rotation_matrix : Option (List (List Rat)))
    (translation_vector : Option (List Rat)) :
    Except String (Xform × List CoordinateSystem) :=
  let sequence_name := "Align map to tomogram"
  let scaled_coords := logical_coords (some "map_scaled")
  let rotated_cords := logical_coords (some "map_rotated")
  let final := logical_coords (some "map_aligned")
  match generate_scale_transformation sequence_name (logical_coords none).name
      scaled_coords.name scale (some 3) with
  | .error e => .error e
  | .ok s0 =>
    match generate_rotation_transformation sequence_name scaled_coords.name
        rotated_cords.name rotation_matrix with
    | .error e => .error e
    | .ok s1 =>
      match generate_translation_transformation sequence_name rotated_cords.name
          final.name 3 translation_vector with
      | .error e => .error e
      | .ok s2 =>
        .ok (.sequence (some sequence_name) (some (logical_coords none).name)
              (some final.name) (some [s0, s1, s2]),
             [scaled_coords, rotated_cords, final])

/-- `aligned_annotation_to_tomogram` of `standard_transformations.py`: the
same three steps as the map builder (the rotation matrix and translation
vector are required parameters in the Python signature, but flow through
the same generators). -/
def aligned_annotation_to_tomogram (scale : Option Rat)
    (rotation_matrix : List (List Rat)) (translation : List Rat) :
    Except String (Xform × List CoordinateSystem) :=
  let sequence_name := "Align annotation to tomogram"
  let scaled_coords := logical_coords (some "annotation_scaled")
  let rotated_cords := logical_coords (some "annotation_rotated")
  let final := logical_coords (some "annotation_aligned")
  match generate_scale_transformation sequence_name (logical_coords none).name
      scaled_coords.name scale (some 3) with
  | .error e => .error e
  | .ok s0 =>
    match generate_rotation_transformation sequence_name scaled_coords.name
        rotated_cords.name (some rotation_matrix) with
    | .error e => .error e
    | .ok s1 =>
      match generate_translation_transformation sequence_name rotated_cords.name
          final.name 3 (some translation) with
      | .error e => .error e
      | .ok s2 =>
        .ok (.sequence (some sequence_name) (some (logical_coords none).name)
              (some final.name) (some [s0, s1, s2]),
             [scaled_coords, rotated_cords, final])

/-- Adjacent chaining inside a sequence: step `i`'s `output` frame name
equals step `i+1`'s `input` frame name. -/
def chainB : List Xform → Bool
  | [] => true
  | [_] => true
  | a :: b :: rest => (xoutput a == xinput b) && chainB (b :: rest)

/-- The designed contract of the multi-step builders: the result is a
`sequence` whose steps chain, whose own `input`/`output` equal the first
step's `input` and the last step's `output`, and whose accompanying list
of coordinate systems consists of exactly the output frames of the steps,
in step order. -/
def seqSpanOK : Xform → List CoordinateSystem → Bool
  | .sequence _ i o (some steps), css =>
      chainB steps &&
      (match steps.head?, steps.getLast? with
       | some f, some l => (i == xinput f) && (o == xoutput l)
       | _, _ => false) &&
      (css.map (fun c => some c.name) == steps.map xoutput)
  | _, _ => false

/-- The `translation` payload of a `translation` step (`none` for any
other variant). -/
def transVec : Xform → Option (Option (List Rat))
  | .translation _ _ _ v => some v
  | _ => none

/-- Axis-name-to-axis-name mapping (`models.py`, class `AxisNameMapping`):
both fields optional. -/
structure AxisNameMapping where
  axis1_name : Option String := none
  axis2_name : Option String := none
deriving DecidableEq, Repr

/-- The discriminated union `Transformation` of `models.py`: exactly six
variants (`Affine`, `Identity`, `MapAxis`, `Translation`, `Scale`,
`Sequence`), all sharing the optional base fields `name`/`input`/`output`
of `CoordinateTransformation`, discriminated by the fixed `type` literal
(which is the constructor here, so a variant cannot carry a foreign
discriminator).  `sequence` recursively nests the union itself. -/
inductive Transformation where
  | identity (name input output : Option String)
  | mapAxis (name input output : Option String) (mapAxis : Option (List AxisNameMapping))
  | translation (name input output : Option String) (translation : Option (List Rat))
  | scale (name input output : Option String) (scale : Option (List Rat))
  | affine (name input output : Option String) (affine : Option (List (List Rat)))
  | sequence (name input output : Option String) (sequence : Option (List Transformation))

/-- The fixed `type` discriminator literal of each variant. -/
def typeLit : Transformation → String
  | .identity .. => "identity"
  | .mapAxis .. => "mapAxis"
  | .translation .. => "translation"
  | .scale .. => "scale"
  | .affine .. => "affine"
  | .sequence .. => "sequence"

mutual

/-- A value is constructible by the pydantic models iff each `affine`
payload is a validated `Matrix3x3` (all other payload fields of the six
variants carry no shape constraint), recursively through `sequence`. -/
def WFt : Transformation → Bool
  | .affine _ _ _ none => true
  | .affine _ _ _ (some m) => isMatrix3x3 m
  | .sequence _ _ _ none => true
  | .sequence _ _ _ (some ts) => WFlist ts
  | _ => true

/-- All members of a transformation list are constructible. -/
def WFlist : List Transformation → Bool
  | [] => true
  | t :: ts => WFt t && WFlist ts

end

/-- The generic keyed structure a pydantic model serializes to
(`model_dump`): a JSON-like tree of nulls, strings, numbers, arrays and
string-keyed objects. -/
inductive JValue where
  | null
  | str (s : String)
  | num (q : Rat)
  | arr (elems : List JValue)
  | obj (fields : List (String × JValue))

/-- First value bound to a key in a keyed structure. -/
def jlookup (k : String) : List (String × JValue) → Option JValue
  | [] => none
  | kv :: rest => if k = kv.1 then some kv.2 else jlookup k rest

/-- Field access on a serialized object. -/
def jget (j : JValue) (k : String) : Option JValue :=
  match j with
  | .obj kvs => jlookup k kvs
  | _ => none

/-- Serialization of an optional string field (`None` → null). -/
def encOptStr : Option String → JValue
  | none => .null
  | some s => .str s

/-- Serialization of a float vector. -/
def encVec (v : List Rat) : JValue := .arr (v.map .num)

/-- Serialization of an optional float vector. -/
def encOptVec : Option (List Rat) → JValue
  | none => .null
  | some v => encVec v

/-- Serialization of an optional matrix. -/
def encOptMat : Option (List (List Rat)) → JValue
  | none => .null
  | some m => .arr (m.map encVec)

/-- Serialization of an `AxisNameMapping` (fields in declaration order). -/
def encMapping (a : AxisNameMapping) : JValue :=
  .obj [("axis1_name", encOptStr a.axis1_name), ("axis2_name", encOptStr a.axis2_name)]

/-- Serialization of an optional list of `AxisNameMapping`s. -/
def encOptMappings : Option (List AxisNameMapping) → JValue
  | none => .null
  | some l => .arr (l.map encMapping)

mutual

/-- `model_dump` of a transformation value: every field is emitted, in
pydantic declaration order (base-class fields `name`/`input`/`output`
first, then the `type` literal, then the variant's payload field), with
`None` serialized as null. -/
def toJson : Transformation → JValue
  | .identity n i o =>
      .obj [("name", encOptStr n), ("input", encOptStr i), ("output", encOptStr o),
            ("type", .str "identity")]
  | .mapAxis n i o m =>
      .obj [("name", encOptStr n), ("input", encOptStr i), ("output", encOptStr o),
            ("type", .str "mapAxis"), ("mapAxis", encOptMappings m)]
  | .translation n i o t =>
      .obj [("name", encOptStr n), ("input", encOptStr i), ("output", encOptStr o),
            ("type", .str "translation"), ("translation", encOptVec t)]
  | .scale n i o s =>
      .obj [("name", encOptStr n), ("input", encOptStr i), ("output", encOptStr o),
            ("type", .str "scale"), ("scale", encOptVec s)]
  | .affine n i o a =>
      .obj [("name", encOptStr n), ("input", encOptStr i), ("output", encOptStr o),
            ("type", .str "affine"), ("affine", encOptMat a)]
  | .sequence n i o s =>
      .obj [("name", encOptStr n), ("input", encOptStr i), ("output", encOptStr o),
            ("type", .str "sequence"),
            ("sequence", match s with
              | none => .null
              | some ts => .arr (toJsonList ts))]

/-- Serialization of a list of transformations, element by element. -/
def toJsonList : List Transformation → List JValue
  | [] => []
  | t :: ts => toJson t :: toJsonList ts

end

/-- Validation of an `Optional[str]` field value: null means `None`, a
string is accepted, anything else is rejected. -/
def decOptStr : JValue → Option (Option String)
  | .null => some none
  | .str s => some (some s)
  | _ => none

/-- Validation of a float. -/
def decNum : JValue → Option Rat
  | .num q => some q
  | _ => none

/-- Validation of the elements of a float list. -/
def decNums : List JValue → Option (List Rat)
  | [] => some []
  | x :: xs =>
    match decNum x, decNums xs with
    | some a, some l => some (a :: l)
    | _, _ => none

/-- Validation of an `Optional[list[float]]` field value (no length
constraint, matching the `translation` and `scale` payload fields). -/
def decOptVec : JValue → Option (Option (List Rat))
  | .null => some none
  | .arr xs => (decNums xs).map some
  | _ => none

/-- Validation of a `Vector3D`: a float list of length exactly 3. -/
def decRow3 : JValue → Option (List Rat)
  | .arr xs =>
    (match decNums xs with
     | some v => if v.length = 3 then some v else none
     | none => none)
  | _ => none

/-- Validation of the rows of a `Matrix3x3`. -/
def decRows3 : List JValue → Option (List (List Rat))
  | [] => some []
  | x :: xs =>
    match decRow3 x, decRows3 xs with
    | some r, some rs => some (r :: rs)
    | _, _ => none

/-- Validation of an `Optional[Matrix3x3]` field value: null means `None`;
an array must have exactly 3 rows, each a `Vector3D`. -/
def decOptMat3 : JValue → Option (Option (List (List Rat)))
  | .null => some none
  | .arr xs => if xs.length = 3 then (decRows3 xs).map some else none
  | _ => none

/-- A field read during validation: a missing optional field takes its
`None` default, a present field is validated. -/
def decOptStrField (kvs : List (String × JValue)) (k : String) :
    Option (Option String) :=
  match jlookup k kvs with
  | none => some none
  | some v => decOptStr v

/-- Strict mode (`extra="forbid"`): every key of the serialized object
must be a declared field of the target model. -/
def strictOK (kvs : List (String × JValue)) (allowed : List String) : Bool :=
  kvs.all (fun kv => allowed.contains kv.1)

/-- Validation of an `AxisNameMapping` object (strict, two optional
string fields). -/
def decMapping : JValue → Option AxisNameMapping
  | .obj kvs =>
    if strictOK kvs ["axis1_name", "axis2_name"] then
      match decOptStrField kvs "axis1_name", decOptStrField kvs "axis2_name" with
      | some a1, some a2 => some ⟨a1, a2⟩
      | _, _ => none
    else none
  | _ => none

/-- Validation of the elements of an `AxisNameMapping` list. -/
def decMappings : List JValue → Option (List AxisNameMapping)
  | [] => some []
  | x :: xs =>
    match decMapping x, decMappings xs with
    | some a, some l => some (a :: l)
    | _, _ => none

/-- Validation of an `Optional[list[AxisNameMapping]]` field value. -/
def decOptMappings : JValue → Option (Option (List AxisNameMapping))
  | .null => some none
  | .arr xs => (decMappings xs).map some
  | _ => none

/-- A value looked up in a keyed structure is structurally smaller than
the structure (termination measure of the recursive deserializer). -/
theorem jlookup_sizeOf {k : String} :
    ∀ {kvs : List (String × JValue)} {v : JValue},
      jlookup k kvs = some v → sizeOf v < sizeOf kvs
  | [], _, h => by simp [jlookup] at h
  | kv :: rest, v, h => by
    by_cases hk : k = kv.1
    · simp [jlookup, hk] at h
      subst h
      cases kv with
      | mk k1 v1 => simp; omega
    · simp [jlookup, hk] at h
      have := jlookup_sizeOf h
      simp; omega

mutual

/-- Deserialization through the discriminated union (`model_validate`
against the `Transformation` annotated union of `models.py`): the `type`
discriminator selects the variant (a missing, non-string or unrecognized
discriminator is rejected), strict mode rejects unknown keys, each field
is validated (missing optional fields default to `None`), and the
`sequence` payload recursively deserializes the union. -/
def fromJson (j : JValue) : Option Transformation :=
  match j with
  | .obj kvs =>
    match jlookup "type" kvs with
    | some (.str t) =>
      if t = "identity" then
        if strictOK kvs ["name", "input", "output", "type"] then
          match decOptStrField kvs "name", decOptStrField kvs "input",
              decOptStrField kvs "output" with
          | some n, some i, some o => some (.identity n i o)
          | _, _, _ => none
        else none
      else if t = "mapAxis" then
        if strictOK kvs ["name", "input", "output", "type", "mapAxis"] then
          match decOptStrField kvs "name", decOptStrField kvs "input",
              decOptStrField kvs "output" with
          | some n, some i, some o =>
            (match jlookup "mapAxis" kvs with
             | none => some (.mapAxis n i o none)
             | some v => (decOptMappings v).map fun m => .mapAxis n i o m)
          | _, _, _ => none
        else none
      else if t = "translation" then
        if strictOK kvs ["name", "input", "output", "type", "translation"] then
          match decOptStrField kvs "name", decOptStrField kvs "input",
              decOptStrField kvs "output" with
          | some n, some i, some o =>
            (match jlookup "translation" kvs with
             | none => some (.translation n i o none)
             | some v => (decOptVec v).map fun t => .translation n i o t)
          | _, _, _ => none
        else none
      else if t = "scale" then
        if strictOK kvs ["name", "input", "output", "type", "scale"] then
          match decOptStrField kvs "name", decOptStrField kvs "input",
              decOptStrField kvs "output" with
          | some n, some i, some o =>
            (match jlookup "scale" kvs with
             | none => some (.scale n i o none)
             | some v => (decOptVec v).map fun s => .scale n i o s)
          | _, _, _ => none
        else none
      else if t = "affine" then
        if strictOK kvs ["name", "input", "output", "type", "affine"] then
          match decOptStrField kvs "name", decOptStrField kvs "input",
              decOptStrField kvs "output" with
          | some n, some i, some o =>
            (match jlookup "affine" kvs with
             | none => some (.affine n i o none)
             | some v => (decOptMat3 v).map fun a => .affine n i o a)
          | _, _, _ => none
        else none
      else if t = "sequence" then
        if strictOK kvs ["name", "input", "output", "type", "sequence"] then
          match decOptStrField kvs "name", decOptStrField kvs "input",
              decOptStrField kvs "output" with
          | some n, some i, some o =>
            (match h : jlookup "sequence" kvs with
             | none => some (.sequence n i o none)
             | some .null => some (.sequence n i o none)
             | some (.arr xs) => (fromJsonList xs).map fun ts => .sequence n i o (some ts)
             | some _ => none)
          | _, _, _ => none
        else none
      else none
    | _ => none
  | _ => none
termination_by sizeOf j
decreasing_by
  have h1 := jlookup_sizeOf h
  simp at h1 ⊢
  omega

/-- Deserialization of a transformation list, element by element. -/
def fromJsonList (l : List JValue) : Option (List Transformation) :=
  match l with
  | [] => some []
  | x :: xs =>
    match fromJson x, fromJsonList xs with
    | some t, some ts => some (t :: ts)
    | _, _ => none
termination_by sizeOf l
decreasing_by
  all_goals (simp; try omega)

end

-- Helper lemmas: each field codec inverts its encoder.

theorem decOptStr_enc (x : Option String) : decOptStr (encOptStr x) = some x := by
  cases x <;> rfl

theorem decNums_enc (v : List Rat) : decNums (v.map .num) = some v := by
  induction v with
  | nil => rfl
  | cons a l ih => simp [decNums, decNum, ih]

theorem decOptVec_enc (x : Option (List Rat)) : decOptVec (encOptVec x) = some x := by
  cases x with
  | none => rfl
  | some v => simp [encOptVec, encVec, decOptVec, decNums_enc]

theorem decRow3_enc {r : List Rat} (h : isVector3D r = true) :
    decRow3 (encVec r) = some r := by
  simp [isVector3D] at h
  simp [encVec, decRow3, decNums_enc, h]

theorem decRows3_enc {m : List (List Rat)} (h : ∀ r ∈ m, isVector3D r = true) :
    decRows3 (m.map encVec) = some m := by
  induction m with
  | nil => rfl
  | cons r rs ih =>
    simp [decRows3, decRow3_enc (h r (by simp)),
          ih (fun x hx => h x (by simp [hx]))]

theorem decOptMat3_enc {m : List (List Rat)} (h : isMatrix3x3 m = true) :
    decOptMat3 (encOptMat (some m)) = some (some m) := by
  have h2 := h
  simp [isMatrix3x3] at h2
  simp [encOptMat, decOptMat3, h2.1, decRows3_enc h2.2]

theorem decMapping_enc (a : AxisNameMapping) : decMapping (encMapping a) = some a := by
  cases a
  simp [encMapping, decMapping, strictOK, decOptStrField, jlookup, decOptStr_enc]

theorem decMappings_enc (l : List AxisNameMapping) :
    decMappings (l.map encMapping) = some l := by
  induction l with
  | nil => rfl
  | cons a l ih => simp [decMappings, decMapping_enc, ih]

theorem decOptMappings_enc (x : Option (List AxisNameMapping)) :
    decOptMappings (encOptMappings x) = some x := by
  cases x with
  | none => rfl
  | some l => simp [encOptMappings, decOptMappings, decMappings_enc]

mutual

/-- Round-trip for every constructible transformation value. -/
theorem roundtrip_aux : ∀ (t : Transformation), WFt t = true →
    fromJson (toJson t) = some t
  | .identity n i o, _ => by
    simp [toJson, fromJson, jlookup, strictOK, decOptStrField, decOptStr_enc]
  | .mapAxis n i o m, _ => by
    simp [toJson, fromJson, jlookup, strictOK, decOptStrField, decOptStr_enc,
          decOptMappings_enc]
  | .translation n i o t, _ => by
    simp [toJson, fromJson, jlookup, strictOK, decOptStrField, decOptStr_enc,
          decOptVec_enc]
  | .scale n i o s, _ => by
    simp [toJson, fromJson, jlookup, strictOK, decOptStrField, decOptStr_enc,
          decOptVec_enc]
  | .affine n i o none, _ => by
    simp [toJson, fromJson, jlookup, strictOK, decOptStrField, decOptStr_enc,
          encOptMat, decOptMat3]
  | .affine n i o (some m), h => by
    have hm : isMatrix3x3 m = true := by simpa [WFt] using h
    simp [toJson, fromJson, jlookup, strictOK, decOptStrField, decOptStr_enc,
          decOptMat3_enc hm]
  | .sequence n i o none, _ => by
    simp [toJson, fromJson, jlookup, strictOK, decOptStrField, decOptStr_enc]
  | .sequence n i o (some ts), h => by
    have hts : WFlist ts = true := by simpa [WFt] using h
    have hrec := roundtripList_aux ts hts
    simp [toJson, fromJson, jlookup, strictOK, decOptStrField, decOptStr_enc, hrec]

/-- Round-trip for lists of constructible transformation values. -/
theorem roundtripList_aux : ∀ (ts : List Transformation), WFlist ts = true →
    fromJsonList (toJsonList ts) = some ts
  | [], _ => by simp [toJsonList, fromJsonList]
  | t :: ts, h => by
    have h1 : WFt t = true := by
      simp [WFlist] at h; exact h.1
    have h2 : WFlist ts = true := by
      simp [WFlist] at h; exact h.2
    simp [toJsonList, fromJsonList, roundtrip_aux t h1, roundtripList_aux ts h2]

end

/-- The serialized `type` field of every variant is its fixed literal. -/
theorem jget_type_toJson (t : Transformation) :
    jget (toJson t) "type" = some (.str (typeLit t)) := by
  cases t <;> rfl

-- Helper lemmas: every generator, on success, returns a transformation
-- whose `input`/`output` fields are exactly the frame names it was given.

theorem gen_flip_io {n i o : String} {a : Option String} {x : Xform}
    (h : generate_flip_transformation n i o a = .ok x) :
    xinput x = some i ∧ xoutput x = some o := by
  cases a with
  | none =>
    simp [generate_flip_transformation] at h
    subst h; exact ⟨rfl, rfl⟩
  | some s =>
    simp only [generate_flip_transformation] at h
    split_ifs at h <;> simp at h <;> (subst h; exact ⟨rfl, rfl⟩)

theorem gen_trans_io {n i o : String} {d : Nat} {v : Option (List Rat)} {x : Xform}
    (h : generate_translation_transformation n i o d v = .ok x) :
    xinput x = some i ∧ xoutput x = some o := by
  simp only [generate_translation_transformation] at h
  split_ifs at h <;> simp at h
  subst h; exact ⟨rfl, rfl⟩

theorem gen_rot_io {n i o : String} {m : Option (List (List Rat))} {x : Xform}
    (h : generate_rotation_transformation n i o m = .ok x) :
    xinput x = some i ∧ xoutput x = some o := by
  cases m with
  | none =>
    simp [generate_rotation_transformation] at h
    subst h; exact ⟨rfl, rfl⟩
  | some mm =>
    simp only [generate_rotation_transformation] at h
    split_ifs at h <;> simp at h <;> (subst h; exact ⟨rfl, rfl⟩)

theorem gen_scale_io {n i o : String} {s : Option Rat} {d : Option Nat} {x : Xform}
    (h : generate_scale_transformation n i o s d = .ok x) :
    xinput x = some i ∧ xoutput x = some o := by
  cases d with
  | none => simp [generate_scale_transformation] at h
  | some dd =>
    simp [generate_scale_transformation] at h
    subst h; exact ⟨rfl, rfl⟩

/-- A concrete transformation value exercising all six union variants
(used to instantiate the round-trip law). -/
def sampleTransformation : Transformation :=
  .sequence (some "pipe") (some "a") (some "b") (some
    [.identity (some "id") (some "a") (some "c"),
     .mapAxis none (some "c") none
       (some [{ axis1_name := some "u", axis2_name := some "v" }]),
     .translation none none (some "d") (some [1, 2]),
     .scale (some "sc") none none (some [2.5, 2.5, 2.5]),
     .affine none none none (some [[1, 0, 0], [0, 1, 0], [0, 0, 1]]),
     .sequence none none none none])

/-- Claim C1: for every constructible value of each of the six
transformation variants (identity, mapAxis, translation, scale, affine,
sequence), serializing it to the generic keyed structure and then
deserializing through the discriminated union yields the original value
in all fields, and the serialized `type` discriminator field always
equals the variant's fixed literal. -/
theorem C1_transformation_roundtrip (t : Transformation) (h : WFt t = true) :
    fromJson (toJson t) = some t ∧
    jget (toJson t) "type" = some (.str (typeLit t)) :=
  ⟨roundtrip_aux t h, jget_type_toJson t⟩

/-- Claim C1, witness: the round-trip law instantiated at a concrete
sequence value containing all six variants. -/
theorem C1_transformation_roundtrip_witness :
    WFt sampleTransformation = true ∧
    (fromJson (toJson sampleTransformation) = some sampleTransformation ∧
     jget (toJson sampleTransformation) "type" =
       some (.str (typeLit sampleTransformation))) :=
  ⟨by rfl, C1_transformation_roundtrip sampleTransformation (by rfl)⟩

/-- Claim C2: every multi-step builder, on every argument combination on
which it returns, produces a `sequence` whose consecutive steps chain
(step `i`'s `output` frame name equals step `i+1`'s `input` frame name),
whose own `input`/`output` equal the first step's `input` and the last
step's `output`, and whose accompanying coordinate-system list consists of
exactly the frames the steps introduce, in step order. -/
theorem C2_builder_sequences_chain :
    (∀ (fa : Option String) (tr : Option (List Rat)) r,
      aligned_calibration_image_to_micrograph fa tr = .ok r →
        seqSpanOK r.1 r.2 = true) ∧
    (∀ (tv : Option (List Rat)) (rm : Option (List (List Rat))) r,
      aligned_projection_image_to_tilt_series tv rm = .ok r →
        seqSpanOK r.1 r.2 = true) ∧
    (∀ (rm : Option (List (List Rat))) (tv : Option (List Rat)) r,
      aligned_subtomo_to_tomogram rm tv = .ok r → seqSpanOK r.1 r.2 = true) ∧
    (∀ (s : Option Rat) (rm : Option (List (List Rat))) (tv : Option (List Rat)) r,
      aligned_map_to_tomogram s rm tv = .ok r → seqSpanOK r.1 r.2 = true) ∧
    (∀ (s : Option Rat) (rm : List (List Rat)) (tv : List Rat) r,
      aligned_annotation_to_tomogram s rm tv = .ok r → seqSpanOK r.1 r.2 = true) := by
  refine ⟨?_, ?_, ?_, ?_, ?_⟩
  · intro fa tr r h
    simp only [aligned_calibration_image_to_micrograph] at h
    split at h
    · simp at h
    · rename_i s0 h0
      split at h
      · simp at h
      · rename_i s1 h1
        simp only [Except.ok.injEq] at h
        subst h
        obtain ⟨hi0, ho0⟩ := gen_flip_io h0
        obtain ⟨hi1, ho1⟩ := gen_trans_io h1
        simp [seqSpanOK, chainB, logical_coords, hi0, ho0, hi1, ho1]
  · intro tv rm r h
    simp only [aligned_projection_image_to_tilt_series] at h
    split at h
    · simp at h
    · rename_i s0 h0
      split at h
      · simp at h
      · rename_i s1 h1
        simp only [Except.ok.injEq] at h
        subst h
        obtain ⟨hi0, ho0⟩ := gen_trans_io h0
        obtain ⟨hi1, ho1⟩ := gen_rot_io h1
        simp [seqSpanOK, chainB, logical_coords, hi0, ho0, hi1, ho1]
  · intro rm tv r h
    simp only [aligned_subtomo_to_tomogram] at h
    split at h
    · simp at h
    · rename_i s0 h0
      split at h
      · simp at h
      · rename_i s1 h1
        simp only [Except.ok.injEq] at h
        subst h
        obtain ⟨hi0, ho0⟩ := gen_rot_io h0
        obtain ⟨hi1, ho1⟩ := gen_trans_io h1
        simp [seqSpanOK, chainB, logical_coords, hi0, ho0, hi1, ho1]
  · intro s rm tv r h
    simp only [aligned_map_to_tomogram] at h
    split at h
    · simp at h
    · rename_i s0 h0
      split at h
      · simp at h
      · rename_i s1 h1
        split at h
        · simp at h
        · rename_i s2 h2
          simp only [Except.ok.injEq] at h
          subst h
          obtain ⟨hi0, ho0⟩ := gen_scale_io h0
          obtain ⟨hi1, ho1⟩ := gen_rot_io h1
          obtain ⟨hi2, ho2⟩ := gen_trans_io h2
          simp [seqSpanOK, chainB, logical_coords, hi0, ho0, hi1, ho1, hi2, ho2]
  · intro s rm tv r h
    simp only [aligned_annotation_to_tomogram] at h
    split at h
    · simp at h
    · rename_i s0 h0
      split at h
      · simp at h
      · rename_i s1 h1
        split at h
        · simp at h
        · rename_i s2 h2
          simp only [Except.ok.injEq] at h
          subst h
          obtain ⟨hi0, ho0⟩ := gen_scale_io h0
          obtain ⟨hi1, ho1⟩ := gen_rot_io h1
          obtain ⟨hi2, ho2⟩ := gen_trans_io h2
          simp [seqSpanOK, chainB, logical_coords, hi0, ho0, hi1, ho1, hi2, ho2]

/-- Claim C2, witness: the chaining contract instantiated at concrete
successful calls of all five multi-step builders. -/
theorem C2_builder_sequences_chain_witness :
    (∃ r, aligned_calibration_image_to_micrograph (some "x") (some [1, 2]) = .ok r ∧
      seqSpanOK r.1 r.2 = true) ∧
    (∃ r, aligned_projection_image_to_tilt_series none none = .ok r ∧
      seqSpanOK r.1 r.2 = true) ∧
    (∃ r, aligned_subtomo_to_tomogram none none = .ok r ∧
      seqSpanOK r.1 r.2 = true) ∧
    (∃ r, aligned_map_to_tomogram (some 2) none none = .ok r ∧
      seqSpanOK r.1 r.2 = true) ∧
    (∃ r, aligned_annotation_to_tomogram (some 2) [[1, 0, 0], [0, 1, 0], [0, 0, 1]]
        [1, 2, 3] = .ok r ∧ seqSpanOK r.1 r.2 = true) :=
  ⟨⟨_, rfl, C2_builder_sequences_chain.1 (some "x") (some [1, 2]) _ rfl⟩,
   ⟨_, rfl, C2_builder_sequences_chain.2.1 none none _ rfl⟩,
   ⟨_, rfl, C2_builder_sequences_chain.2.2.1 none none _ rfl⟩,
   ⟨_, rfl, C2_builder_sequences_chain.2.2.2.1 (some 2) none none _ rfl⟩,
   ⟨_, rfl, C2_builder_sequences_chain.2.2.2.2 (some 2)
      [[1, 0, 0], [0, 1, 0], [0, 0, 1]] [1, 2, 3] _ rfl⟩⟩

/-- Claim C3: `generate_rotation_transformation` dispatches on the matrix
rank: `None` yields an `identity` variant; a 3x3 matrix yields an `affine`
variant whose payload equals the input matrix; a 2x2 matrix yields a 2-D
rotation variant; a matrix whose rank is neither 2 nor 3 fails with an
error. -/
theorem C3_rotation_dispatch :
    (∀ n i o : String, generate_rotation_transformation n i o none =
        .ok (.identity (some n) (some i) (some o))) ∧
    (∀ (n i o : String) (m : List (List Rat)), isMatrix3x3 m = true →
        generate_rotation_transformation n i o (some m) =
          .ok (.affine (some n) (some i) (some o) (some m))) ∧
    (∀ (n i o : String) (m : List (List Rat)), isMatrix2x2 m = true →
        generate_rotation_transformation n i o (some m) =
          .ok (.rotation2d (some n) (some i) (some o) (some m))) ∧
    (∀ (n i o : String) (m : List (List Rat)), m.length ≠ 2 → m.length ≠ 3 →
        generate_rotation_transformation n i o (some m) =
          .error "Invalid matrix dimensions") := by
  refine ⟨fun n i o => rfl, ?_, ?_, ?_⟩
  · intro n i o m hm
    have h3 : m.length = 3 := by
      simp [isMatrix3x3] at hm; exact hm.1
    simp [generate_rotation_transformation, h3, hm]
  · intro n i o m hm
    have h2 : m.length = 2 := by
      simp [isMatrix2x2] at hm; exact hm.1
    simp [generate_rotation_transformation, h2, hm]
  · intro n i o m h2 h3
    simp [generate_rotation_transformation, h2, h3]

/-- Claim C3, witness: the dispatch instantiated at `None`, the 3x3
identity matrix, a 2x2 matrix, and a rank-1 matrix. -/
theorem C3_rotation_dispatch_witness :
    generate_rotation_transformation "n" "i" "o" none =
      .ok (.identity (some "n") (some "i") (some "o")) ∧
    isMatrix3x3 [[1, 0, 0], [0, 1, 0], [0, 0, 1]] = true ∧
    generate_rotation_transformation "n" "i" "o"
        (some [[1, 0, 0], [0, 1, 0], [0, 0, 1]]) =
      .ok (.affine (some "n") (some "i") (some "o")
            (some [[1, 0, 0], [0, 1, 0], [0, 0, 1]])) ∧
    isMatrix2x2 [[0, 1], [1, 0]] = true ∧
    generate_rotation_transformation "n" "i" "o" (some [[0, 1], [1, 0]]) =
      .ok (.rotation2d (some "n") (some "i") (some "o") (some [[0, 1], [1, 0]])) ∧
    ([[1]] : List (List Rat)).length ≠ 2 ∧
    ([[1]] : List (List Rat)).length ≠ 3 ∧
    generate_rotation_transformation "n" "i" "o" (some [[1]]) =
      .error "Invalid matrix dimensions" :=
  ⟨C3_rotation_dispatch.1 "n" "i" "o",
   by rfl, C3_rotation_dispatch.2.1 "n" "i" "o" _ (by rfl),
   by rfl, C3_rotation_dispatch.2.2.1 "n" "i" "o" _ (by rfl),
   by decide, by decide,
   C3_rotation_dispatch.2.2.2 "n" "i" "o" _ (by decide) (by decide)⟩

/-- Claim C4: `generate_translation_transformation` fails with a
dimension-mismatch error whenever the supplied vector's length differs
from the declared dimensionality, and with no vector supplied it returns
a translation whose vector is the zero vector of length `dim` (for
`dim = 3`, `[0, 0, 0]`). -/
theorem C4_translation_dim_check (n i o : String) :
    (∀ (d : Nat) (v : List Rat), v.length ≠ d →
      generate_translation_transformation n i o d (some v) =
        .error "Incorrect dimensionality of translation vector") ∧
    (∀ d : Nat, generate_translation_transformation n i o d none =
      .ok (.translation (some n) (some i) (some o) (some (List.replicate d 0)))) ∧
    generate_translation_transformation n i o 3 none =
      .ok (.translation (some n) (some i) (some o) (some [0, 0, 0])) := by
  refine ⟨?_, fun d => ?_, rfl⟩
  · intro d v hv
    simp [generate_translation_transformation, hv]
  · simp [generate_translation_transformation]

/-- Claim C4, witness: the dimension check instantiated at `dim = 2` with
vectors `[1]` and `[1, 2, 3]`, and the zero default at `dim = 3`. -/
theorem C4_translation_dim_check_witness :
    ([1] : List Rat).length ≠ 2 ∧
    generate_translation_transformation "n" "i" "o" 2 (some [1]) =
      .error "Incorrect dimensionality of translation vector" ∧
    ([1, 2, 3] : List Rat).length ≠ 2 ∧
    generate_translation_transformation "n" "i" "o" 2 (some [1, 2, 3]) =
      .error "Incorrect dimensionality of translation vector" ∧
    generate_translation_transformation "n" "i" "o" 3 none =
      .ok (.translation (some "n") (some "i") (some "o") (some [0, 0, 0])) :=
  ⟨by decide, (C4_translation_dim_check "n" "i" "o").1 2 [1] (by decide),
   by decide, (C4_translation_dim_check "n" "i" "o").1 2 [1, 2, 3] (by decide),
   (C4_translation_dim_check "n" "i" "o").2.2⟩

/-- Claim C5: `generate_scale_transformation` with `scale=None, dim=3`
returns scale vector `[0, 0, 0]`; with `scale=2.5, dim=3` returns
`[2.5, 2.5, 2.5]`; with `dim=None` it fails with an error for every value
of `scale`. -/
theorem C5_scale_defaults (n i o : String) :
    generate_scale_transformation n i o none (some 3) =
      .ok (.scale (some n) (some i) (some o) (some [0, 0, 0])) ∧
    generate_scale_transformation n i o (some 2.5) (some 3) =
      .ok (.scale (some n) (some i) (some o) (some [2.5, 2.5, 2.5])) ∧
    (∀ s : Option Rat, generate_scale_transformation n i o s none =
      .error "Dimension cannot be None") :=
  ⟨rfl, rfl, fun _ => rfl⟩

/-- Claim C6: `aligned_map_to_tomogram` with `scale=2.0`, the 3x3 identity
rotation matrix and translation vector `[1, 2, 3]` returns a sequence of
exactly 3 steps in order [scale, rotation(affine), translation], together
with exactly 3 newly introduced coordinate systems. -/
theorem C6_map_to_tomogram_concrete :
    aligned_map_to_tomogram (some 2) (some [[1, 0, 0], [0, 1, 0], [0, 0, 1]])
        (some [1, 2, 3]) =
      .ok (.sequence (some "Align map to tomogram")
            (some "base_logical_coordinates") (some "map_aligned")
            (some [.scale (some "Align map to tomogram")
                     (some "base_logical_coordinates") (some "map_scaled")
                     (some [2, 2, 2]),
                   .affine (some "Align map to tomogram") (some "map_scaled")
                     (some "map_rotated")
                     (some [[1, 0, 0], [0, 1, 0], [0, 0, 1]]),
                   .translation (some "Align map to tomogram")
                     (some "map_rotated") (some "map_aligned")
                     (some [1, 2, 3])]),
           [logical_coords (some "map_scaled"),
            logical_coords (some "map_rotated"),
            logical_coords (some "map_aligned")]) := rfl

/-- Claim C7: the flip builder fails with an error for any axis selector
outside `{x, y, none}` (in particular `"q"`); with `"x"` it returns the
matrix `[[1,0],[0,-1]]`; with `"y"` it returns `[[-1,0],[0,1]]`; with no
axis it returns the identity matrix `[[1,0],[0,1]]`. -/
theorem C7_flip_selector (n i o : String) :
    generate_flip_transformation n i o (some "q") =
      .error "Axis must be 'x', 'y'" ∧
    (∀ a : String, a ≠ "x" → a ≠ "y" →
      generate_flip_transformation n i o (some a) =
        .error "Axis must be 'x', 'y'") ∧
    generate_flip_transformation n i o (some "x") =
      .ok (.flip2d (some n) (some i) (some o) (some [[1, 0], [0, -1]])) ∧
    generate_flip_transformation n i o (some "y") =
      .ok (.flip2d (some n) (some i) (some o) (some [[-1, 0], [0, 1]])) ∧
    generate_flip_transformation n i o none =
      .ok (.flip2d (some n) (some i) (some o) (some [[1, 0], [0, 1]])) := by
  refine ⟨rfl, ?_, rfl, rfl, rfl⟩
  intro a hx hy
  simp [generate_flip_transformation, hx, hy]

/-- Claim C7, witness: the selector check instantiated at the arbitrary
bad selector `"zz"`. -/
theorem C7_flip_selector_witness :
    ("zz" : String) ≠ "x" ∧ ("zz" : String) ≠ "y" ∧
    generate_flip_transformation "n" "i" "o" (some "zz") =
      .error "Axis must be 'x', 'y'" :=
  ⟨by decide, by decide,
   (C7_flip_selector "n" "i" "o").2.1 "zz" (by decide) (by decide)⟩

/-- Claim C8, counterexample: `aligned_movie_frame_to_projection` called
with the translation vector omitted produces a translation step whose
payload is absent (`None`), not the zero vector — refuting the claim
that every builder with an optional translation parameter substitutes the
zero vector. -/
theorem C8_absent_payload_counterexample :
    aligned_movie_frame_to_projection none =
      (.translation (some "Align movie frame to projection")
         (some "base_logical_coordinates") (some "movie_frame_aligned") none,
       [logical_coords (some "movie_frame_aligned")]) ∧
    transVec (aligned_movie_frame_to_projection none).1 = some none :=
  ⟨rfl, rfl⟩

/-- Claim C8 (amended): every builder that routes its optional translation
vector through `generate_translation_transformation` (calibration,
projection→tilt-series, subtomogram and map builders) substitutes the
zero vector of its declared dimensionality when the vector is omitted;
`aligned_movie_frame_to_projection` instead passes the omitted vector
through as an absent (`None`) payload. -/
theorem C8_translation_default_amended :
    (∀ fa r, aligned_calibration_image_to_micrograph fa none = .ok r →
      (seqSteps r.1)[1]? = some (.translation
        (some "Align calibration image to movie")
        (some "calibration_image_flipped") (some "calibration_image_aligned")
        (some [0, 0]))) ∧
    (∀ rm r, aligned_projection_image_to_tilt_series none rm = .ok r →
      (seqSteps r.1)[0]? = some (.translation
        (some "Align projection image to tilt series")
        (some "base_logical_coordinates") (some "projection_image_translated")
        (some [0, 0]))) ∧
    (∀ rm r, aligned_subtomo_to_tomogram rm none = .ok r →
      (seqSteps r.1)[1]? = some (.translation
        (some "Align subtomo to tomogram")
        (some "subtomo_rotated") (some "subtomo_aligned")
        (some [0, 0, 0]))) ∧
    (∀ s rm r, aligned_map_to_tomogram s rm none = .ok r →
      (seqSteps r.1)[2]? = some (.translation
        (some "Align map to tomogram")
        (some "map_rotated") (some "map_aligned")
        (some [0, 0, 0]))) ∧
    transVec (aligned_movie_frame_to_projection none).1 = some none := by
  refine ⟨?_, ?_, ?_, ?_, rfl⟩
  · intro fa r h
    simp only [aligned_calibration_image_to_micrograph] at h
    split at h
    · simp at h
    · rename_i s0 h0
      split at h
      · simp at h
      · rename_i s1 h1
        simp only [Except.ok.injEq] at h
        subst h
        rw [show generate_translation_transformation
              "Align calibration image to movie"
              (logical_coords (some "calibration_image_flipped")).name
              (logical_coords (some "calibration_image_aligned")).name 2 none =
            Except.ok (Xform.translation (some "Align calibration image to movie")
              (some "calibration_image_flipped") (some "calibration_image_aligned")
              (some [0, 0])) from rfl] at h1
        injection h1 with h1
        subst h1
        rfl
  · intro rm r h
    simp only [aligned_projection_image_to_tilt_series] at h
    split at h
    · simp at h
    · rename_i s0 h0
      split at h
      · simp at h
      · rename_i s1 h1
        simp only [Except.ok.injEq] at h
        subst h
        rw [show generate_translation_transformation
              "Align projection image to tilt series"
              (logical_coords none).name
              (logical_coords (some "projection_image_translated")).name 2 none =
            Except.ok (Xform.translation
              (some "Align projection image to tilt series")
              (some "base_logical_coordinates")
              (some "projection_image_translated")
              (some [0, 0])) from rfl] at h0
        injection h0 with h0
        subst h0
        rfl
  · intro rm r h
    simp only [aligned_subtomo_to_tomogram] at h
    split at h
    · simp at h
    · rename_i s0 h0
      split at h
      · simp at h
      · rename_i s1 h1
        simp only [Except.ok.injEq] at h
        subst h
        rw [show generate_translation_transformation
              "Align subtomo to tomogram"
              (logical_coords (some "subtomo_rotated")).name
              (logical_coords (some "subtomo_aligned")).name 3 none =
            Except.ok (Xform.translation (some "Align subtomo to tomogram")
              (some "subtomo_rotated") (some "subtomo_aligned")
              (some [0, 0, 0])) from rfl] at h1
        injection h1 with h1
        subst h1
        rfl
  · intro s rm r h
    simp only [aligned_map_to_tomogram] at h
    split at h
    · simp at h
    · rename_i s0 h0
      split at h
      · simp at h
      · rename_i s1 h1
        split at h
        · simp at h
        · rename_i s2 h2
          simp only [Except.ok.injEq] at h
          subst h
          rw [show generate_translation_transformation
                "Align map to tomogram"
                (logical_coords (some "map_rotated")).name
                (logical_coords (some "map_aligned")).name 3 none =
              Except.ok (Xform.translation (some "Align map to tomogram")
                (some "map_rotated") (some "map_aligned")
                (some [0, 0, 0])) from rfl] at h2
          injection h2 with h2
          subst h2
          rfl

/-- Claim C8 (amended), witness: the zero-vector default instantiated at
concrete successful calls of the four chained builders. -/
theorem C8_translation_default_amended_witness :
    (∃ r, aligned_calibration_image_to_micrograph none none = .ok r ∧
      (seqSteps r.1)[1]? = some (.translation
        (some "Align calibration image to movie")
        (some "calibration_image_flipped") (some "calibration_image_aligned")
        (some [0, 0]))) ∧
    (∃ r, aligned_projection_image_to_tilt_series none none = .ok r ∧
      (seqSteps r.1)[0]? = some (.translation
        (some "Align projection image to tilt series")
        (some "base_logical_coordinates") (some "projection_image_translated")
        (some [0, 0]))) ∧
    (∃ r, aligned_subtomo_to_tomogram none none = .ok r ∧
      (seqSteps r.1)[1]? = some (.translation
        (some "Align subtomo to tomogram")
        (some "subtomo_rotated") (some "subtomo_aligned")
        (some [0, 0, 0]))) ∧
    (∃ r, aligned_map_to_tomogram (some 2) none none = .ok r ∧
      (seqSteps r.1)[2]? = some (.translation
        (some "Align map to tomogram")
        (some "map_rotated") (some "map_aligned")
        (some [0, 0, 0]))) :=
  ⟨⟨_, rfl, C8_translation_default_amended.1 none _ rfl⟩,
   ⟨_, rfl, C8_translation_default_amended.2.1 none _ rfl⟩,
   ⟨_, rfl, C8_translation_default_amended.2.2.1 none _ rfl⟩,
   ⟨_, rfl, C8_translation_default_amended.2.2.2.1 (some 2) none _ rfl⟩⟩

/-- Claim C9, counterexample: constructing a `CoordinateSystem` with a
present name and an empty axes list succeeds — refuting the claim that
construction fails when the axes sequence is empty (`models.py` declares
no minimum length on `axes`). -/
theorem C9_empty_axes_counterexample :
    mkCoordinateSystem (some "frame") (some []) =
      .ok { name := "frame", axes := [] } := rfl

/-- Claim C9 (amended): constructing a `CoordinateSystem` fails when the
name is absent or when the axes field is absent; every successfully
constructed `CoordinateSystem` has a name and an ordered (possibly empty)
list of axes — an empty axes list is accepted. -/
theorem C9_coordinate_system_required :
    (∀ a : Option (List Axis),
      mkCoordinateSystem none a = .error "Field required: name") ∧
    (∀ n : String,
      mkCoordinateSystem (some n) none = .error "Field required: axes") ∧
    (∀ (n : String) (l : List Axis),
      mkCoordinateSystem (some n) (some l) = .ok ⟨n, l⟩) := by
  refine ⟨fun a => ?_, fun n => rfl, fun n l => rfl⟩
  cases a <;> rfl

/-- Claim C10: both internal frame factories produce coordinate systems
with exactly two axes, an x axis and a z axis (never a y axis), for every
name; `logical_coords` with no name uses `"base_logical_coordinates"`. -/
theorem C10_frame_axes (name : String) :
    (physical_coords name).name = name ∧
    (physical_coords name).axes.map Axis.name =
      ["physical coordinates x axis", "physical coordinates z axis"] ∧
    (logical_coords (some name)).name = name ∧
    (logical_coords (some name)).axes.map Axis.name =
      ["logical coordinates x axis", "logical coordinates z axis"] ∧
    (logical_coords none).name = "base_logical_coordinates" ∧
    (logical_coords none).axes.map Axis.name =
      ["logical coordinates x axis", "logical coordinates z axis"] :=
  ⟨rfl, rfl, rfl, rfl, rfl, rfl⟩

end Cets
